import Mathlib

/-!
Verification of the data pipeline in `app.py` (French fire-department
interventions dashboard, 2023).

The embedding models the `load_data` function (CSV loading with encoding
fallback, header renaming, default columns, numeric coercion, derived
columns), the sidebar filter, and the aggregation patterns
(`region_carence`, `df_map`, `pct`, `Part_Incendies`).

Machine reals are modelled as `ℚ` (all arithmetic in the pipeline is
exact at the claim-relevant inputs); pandas `NaN` is modelled by a
dedicated `Cell.null` constructor inside tables and by `Option ℚ` for
scalar float results.
-/

namespace Pompiers

set_option maxRecDepth 8000

/-- A pandas cell: a number, a string, or `NaN`/`None` (modelled as `null`). -/
inductive Cell where
  | num (q : ℚ)
  | str (s : String)
  | null
  deriving DecidableEq

/-- Whitespace, as stripped by Python's numeric parsing and by
`pandas.Series.str.strip` (the common ASCII whitespace; exotic Unicode
spaces do not occur in the claims' inputs). -/
def isWS (c : Char) : Bool :=
  c = ' ' || c = '\t' || c = '\n' || c = '\r'

/-- Drop leading and trailing whitespace from a character list. -/
def trimChars (cs : List Char) : List Char :=
  ((cs.dropWhile isWS).reverse.dropWhile isWS).reverse

/-- Strip leading/trailing whitespace from a string
(`str.strip()` / `pandas.Index.str.strip()`). -/
def strip (s : String) : String :=
  String.mk (trimChars s.toList)

/-- Value of a decimal digit character, `none` for anything else. -/
def digitVal (c : Char) : Option ℕ :=
  if '0' ≤ c ∧ c ≤ '9' then some (c.toNat - '0'.toNat) else none

/-- `true` iff every character is a decimal digit. -/
def allDigits (cs : List Char) : Bool :=
  cs.all (fun c => (digitVal c).isSome)

/-- Numeric value of a digit string (0 for the empty list; callers
guard non-emptiness). -/
def digitsVal (cs : List Char) : ℕ :=
  cs.foldl (fun acc c => acc * 10 + ((digitVal c).getD 0)) 0

/-- Parse an unsigned decimal literal (`"123"`, `"123.5"`, `"123."`,
`".5"`), exactly the forms Python/pandas number parsing accepts at the
claims' inputs.  Interior spaces, commas, or any other character make
the parse fail. -/
def parseUnsigned (cs : List Char) : Option ℚ :=
  match cs.splitOn '.' with
  | [ds] =>
    if ds ≠ [] ∧ allDigits ds then some (digitsVal ds) else none
  | [is, fs] =>
    if (is ≠ [] ∨ fs ≠ []) ∧ allDigits is ∧ allDigits fs then
      some ((digitsVal is : ℚ) + (digitsVal fs : ℚ) / (10 : ℚ) ^ fs.length)
    else none
  | _ => none

/-- Model of the number parse used by `pd.to_numeric` on a string cell:
strip surrounding whitespace, optional sign, decimal literal.  Returns
`none` (pandas: `NaN` under `errors='coerce'`) on anything else — in
particular on interior spaces (`"1 234"`) and decimal commas
(`"1234,5"`), which `to_numeric` does not clean. -/
def parseFloat (s : String) : Option ℚ :=
  match trimChars s.toList with
  | '-' :: rest => (parseUnsigned rest).map (fun q => -q)
  | '+' :: rest => parseUnsigned rest
  | cs => parseUnsigned cs

/-- One cell of `pd.to_numeric(df[col], errors='coerce').fillna(0)`
(app.py lines 114–115): numbers pass through, `NaN`/`None` and
unparseable strings become 0. -/
def coerceCell (c : Cell) : Cell :=
  match c with
  | .num q => .num q
  | .str s => .num ((parseFloat s).getD 0)
  | .null => .num 0

/-- Numeric view of a cell (post-coercion cells are always `num`). -/
def cellQ (c : Cell) : ℚ :=
  match c with
  | .num q => q
  | _ => 0

/-- `astype(str)` of a cell (`NaN` stringifies to `"nan"` in pandas). -/
def cellStr (c : Cell) : String :=
  match c with
  | .num q => toString q
  | .str s => s
  | .null => "nan"

/-- One cell of `df[col].fillna('Non renseigné').astype(str)`
(app.py lines 131–133). -/
def fillTextCell (c : Cell) : Cell :=
  match c with
  | .null => .str "Non renseigné"
  | .num q => .str (toString q)
  | .str s => .str s

/-- The guarded shortage rate
`np.where(tm > 0, mc / tm * 100, 0)` (app.py lines 120–121, 456–460,
603–605), as a scalar function of the numerator `mc` and denominator
`tm`. -/
def taux_carence (mc tm : ℚ) : ℚ :=
  if 0 < tm then mc / tm * 100 else 0

/-- `str.zfill(2)` (app.py line 125). -/
def zfill2 (s : String) : String :=
  if s.length < 2 then String.mk (List.replicate (2 - s.length) '0') ++ s else s

/-- `.str.extract(r'(\d+)')[0].fillna('00')` (app.py line 127): first
run of digits in the string, `"00"` if there is none. -/
def extractDigits (s : String) : String :=
  let ds := (s.toList.dropWhile (fun c => (digitVal c).isNone)).takeWhile
    (fun c => (digitVal c).isSome)
  if ds = [] then "00" else String.mk ds

/-- A column of cells. -/
abbrev Col := List Cell

/-- A DataFrame, column-oriented: an ordered association list from
header name to column.  (pandas' per-column dtypes are immaterial here:
every operation in `load_data` is modelled cell-wise.) -/
abbrev Frame := List (String × Col)

/-- First column with the given name (`df[name]`). -/
def lookupCol : Frame → String → Option Col
  | [], _ => none
  | (h, c) :: rest, n => if h = n then some c else lookupCol rest n

/-- `name in df.columns`. -/
def hasCol (f : Frame) (n : String) : Bool :=
  (lookupCol f n).isSome

/-- Number of rows (length of the index; every column of a well-formed
frame has this length). -/
def nrows : Frame → ℕ
  | [] => 0
  | (_, c) :: _ => c.length

/-- `df.columns = df.columns.str.strip()` (app.py line 75). -/
def stripHeaders (f : Frame) : Frame :=
  f.map (fun p => (strip p.1, p.2))

/-- The column rename mapping (app.py lines 78–92). -/
def col_mapping : List (String × String) :=
  [("Année", "Annee"),
   ("Région", "Region"),
   ("Numéro", "Numero"),
   ("Département", "Departement"),
   ("Catégorie A", "Categorie_A"),
   ("Feux d'habitations-bureaux", "Feux_habitations"),
   ("Secours à victime", "Secours_victime"),
   ("Secours à personne", "Secours_personne"),
   ("Malaises à domicile : urgence vitale", "Malaises_Urgence"),
   ("Malaises à domicile : carence", "Malaises_Carence"),
   ("Accidents de circulation", "Accidents_circulation"),
   ("Opérations diverses", "Operations_diverses"),
   ("Total interventions", "Total_interventions")]

/-- `if old_name in df.columns: df.rename(columns={old_name: new_name})`
for one mapping entry (app.py lines 95–97). -/
def renameOne (f : Frame) (old new : String) : Frame :=
  if hasCol f old then
    f.map (fun p => if p.1 = old then (new, p.2) else p)
  else f

/-- The whole rename loop over `col_mapping` (app.py lines 95–97). -/
def renameAll (f : Frame) : Frame :=
  col_mapping.foldl (fun g p => renameOne g p.1 p.2) f

/-- Net effect of strip-then-rename on a single raw header: the header
resolution `load_data` actually performs (strip, then exact match
against `col_mapping`; no case folding, no accent folding, no substring
matching). -/
def renamedHeader (h : String) : String :=
  match col_mapping.lookup (strip h) with
  | some new => new
  | none => strip h

/-- The canonical column set (app.py lines 100–103). -/
def required_cols : List String :=
  ["Annee", "Region", "Numero", "Departement", "Categorie_A",
   "Zone", "Feux_habitations", "Incendies", "Secours_victime",
   "Secours_personne", "Malaises_Urgence", "Malaises_Carence",
   "Accidents_circulation", "Operations_diverses", "Total_interventions"]

/-- The categorical columns that default to the sentinel string
(app.py line 107) and get the text cleanup (app.py line 130). -/
def text_cols : List String :=
  ["Region", "Departement", "Categorie_A", "Zone"]

/-- Default cell for a missing canonical column (app.py line 107). -/
def defaultCell (c : String) : Cell :=
  if c ∈ text_cols then .str "Non renseigné" else .num 0

/-- `df[n] = col`: replace the column if the name exists, else append it. -/
def setCol (f : Frame) (n : String) (c : Col) : Frame :=
  if hasCol f n then
    f.map (fun p => if p.1 = n then (n, c) else p)
  else f ++ [(n, c)]

/-- `for col in required_cols: if col not in df.columns: df[col] = default`
(app.py lines 105–107); `n` is the row count of the frame, which never
changes during the loop. -/
def addMissing (n : ℕ) : List String → Frame → Frame
  | [], f => f
  | c :: cs, f =>
    addMissing n cs
      (if hasCol f c then f else setCol f c (List.replicate n (defaultCell c)))

/-- The numeric columns converted by `pd.to_numeric` (app.py lines 110–112). -/
def numeric_cols : List String :=
  ["Feux_habitations", "Incendies", "Secours_victime", "Secours_personne",
   "Malaises_Urgence", "Malaises_Carence", "Accidents_circulation",
   "Operations_diverses", "Total_interventions"]

/-- Transform every column's cells, keeping names and order. -/
def mapVals (g : String → Col → Col) (f : Frame) : Frame :=
  f.map (fun p => (p.1, g p.1 p.2))

/-- The numeric-conversion loop (app.py lines 114–115). -/
def coerceNumericCols (f : Frame) : Frame :=
  mapVals (fun h col => if h ∈ numeric_cols then col.map coerceCell else col) f

/-- Numeric values of a column (`df[n]` viewed as a float series). -/
def numColQ (f : Frame) (n : String) : List ℚ :=
  ((lookupCol f n).getD []).map cellQ

/-- The derived columns (app.py lines 118–121): `Total_Malaises`,
`Total_Medical`, and the guarded `Taux_Carence`. -/
def addDerived (f : Frame) : Frame :=
  let f1 := setCol f "Total_Malaises"
    ((List.zipWith (· + ·) (numColQ f "Malaises_Urgence")
      (numColQ f "Malaises_Carence")).map Cell.num)
  let f2 := setCol f1 "Total_Medical"
    ((List.zipWith (· + ·) (numColQ f1 "Secours_victime")
      (numColQ f1 "Secours_personne")).map Cell.num)
  setCol f2 "Taux_Carence"
    ((List.zipWith taux_carence (numColQ f2 "Malaises_Carence")
      (numColQ f2 "Total_Malaises")).map Cell.num)

/-- The `Code_Dept` column (app.py lines 124–127). After the
missing-column pass, `Numero` always exists, so the first branch is the
live one; the `else` branch models the departement-digits fallback. -/
def addCodeDept (f : Frame) : Frame :=
  if hasCol f "Numero" then
    setCol f "Code_Dept"
      (((lookupCol f "Numero").getD []).map (fun c => .str (zfill2 (cellStr c))))
  else
    setCol f "Code_Dept"
      (((lookupCol f "Departement").getD []).map
        (fun c => .str (extractDigits (cellStr c))))

/-- The text cleanup loop (app.py lines 130–133). -/
def textClean (f : Frame) : Frame :=
  mapVals (fun h col => if h ∈ text_cols then col.map fillTextCell else col) f

/-- The whole normalization part of `load_data` (app.py lines 75–135),
from the raw parsed frame to the canonical frame.  Total: no branch can
fail, which models "never raises for missing columns / malformed
cells". -/
def load_norm (f : Frame) : Frame :=
  let f1 := renameAll (stripHeaders f)
  let f2 := addMissing (nrows f1) required_cols f1
  let f3 := coerceNumericCols f2
  let f4 := addDerived f3
  let f5 := addCodeDept f4
  textClean f5

/-! ### Row view of the canonical table

After `load_data`, the dashboard works row-wise on the canonical
columns.  `Row` is the row view of the canonical frame; the derived
quantities mirror app.py lines 118–121. -/

/-- One canonical row, with the attributes the dashboard's filters and
aggregations use. -/
structure Row where
  Region : String
  Departement : String
  Categorie_A : String
  Zone : String
  Malaises_Urgence : ℚ
  Malaises_Carence : ℚ
  Secours_victime : ℚ
  Secours_personne : ℚ
  Incendies : ℚ
  Total_interventions : ℚ
  deriving DecidableEq

/-- `Total_Malaises = Malaises_Urgence + Malaises_Carence` (app.py line 118). -/
def totalMalaises (r : Row) : ℚ :=
  r.Malaises_Urgence + r.Malaises_Carence

/-- `Total_Medical = Secours_victime + Secours_personne` (app.py line 119). -/
def totalMedical (r : Row) : ℚ :=
  r.Secours_victime + r.Secours_personne

/-- Per-row `Taux_Carence` (app.py lines 120–121). -/
def tauxCarenceRow (r : Row) : ℚ :=
  taux_carence r.Malaises_Carence (totalMalaises r)

/-- Group of a table under a key function (`df.groupby(key)`, one
group): the rows whose key equals `k`, in table order. -/
def groupRows (key : Row → String) (df : List Row) (k : String) : List Row :=
  df.filter (fun r => key r == k)

/-- Aggregate shortage rate of one group: sum the numerator and
denominator columns over the group, then apply the guarded rate — the
`groupby(...).agg('sum')` + `np.where` pattern of `region_carence`
(app.py lines 451–460) and `df_map` (lines 594–605), for an arbitrary
grouping key. -/
def taux_agg (key : Row → String) (df : List Row) (k : String) : ℚ :=
  taux_carence ((groupRows key df k).map Row.Malaises_Carence).sum
    ((groupRows key df k).map totalMalaises).sum

/-- The `region_carence` aggregation keyed by `Region`
(app.py lines 451–460). -/
def region_carence_taux (df : List Row) (g : String) : ℚ :=
  taux_agg Row.Region df g

/-- Arithmetic mean of the per-row shortage rates of a group — what the
aggregation would compute if it averaged `Taux_Carence` instead of
recomputing it from the summed counts.  (Defined only for comparison;
the code never computes this.) -/
def meanTauxRow (key : Row → String) (df : List Row) (k : String) : ℚ :=
  ((groupRows key df k).map tauxCarenceRow).sum / (groupRows key df k).length

/-- A two-row region with uneven per-row denominators: row rates 100
and 0, aggregate rate 25, mean of row rates 50. -/
def unevenDf : List Row :=
  [⟨"X", "D1", "SDIS", "Rural", 0, 1, 0, 0, 0, 1⟩,
   ⟨"X", "D2", "SDIS", "Rural", 3, 0, 0, 0, 0, 3⟩]

/-- The guarded percent-of-whole
`(val / total_inter * 100) if total_inter > 0 else 0`
(app.py lines 315–316, and the same shape at 385, 496, 499). -/
def pct (val total_inter : ℚ) : ℚ :=
  if 0 < total_inter then val / total_inter * 100 else 0

/-- IEEE division as pandas performs it on float columns: a zero
denominator yields no finite number (`0/0 = NaN`, `x/0 = ±inf`),
modelled as `none`. -/
def pandasDiv (a b : ℚ) : Option ℚ :=
  if b = 0 then none else some (a / b)

/-- The unguarded zone share
`zone_analysis['Incendies'] / zone_analysis['Total_interventions'] * 100`
(app.py line 554): no zero-denominator guard. -/
def Part_Incendies (incendies total : ℚ) : Option ℚ :=
  (pandasDiv incendies total).map (fun q => q * 100)

/-- The sidebar filter application (app.py lines 162–168):
`df.copy()` then one conditional equality filter per selector, each
skipped when the selector is `"Toutes"`. -/
def df_filtered (df : List Row)
    (selected_region selected_zone selected_category : String) : List Row :=
  let d := df
  let d := if selected_region ≠ "Toutes"
    then d.filter (fun r => r.Region == selected_region) else d
  let d := if selected_zone ≠ "Toutes"
    then d.filter (fun r => r.Zone == selected_zone) else d
  if selected_category ≠ "Toutes"
    then d.filter (fun r => r.Categorie_A == selected_category) else d

/-! ### The loader (app.py lines 61–72)

`pd.read_csv(path, sep=";", encoding=e)` is modelled as: decode the
file bytes with `e` (which can fail), then parse the decoded text as
`';'`-separated CSV (which fails only on an empty file, pandas'
`EmptyDataError`).  The bare `except: continue` makes any failure fall
through to the next encoding. -/

/-- `latin-1` decoding: total — every byte value maps to the code point
of the same value. -/
def latin1D (bs : List ℕ) : Option (List Char) :=
  some (bs.map Char.ofNat)

/-- `iso-8859-1` is the same codec as `latin-1` in Python. -/
def iso88591D (bs : List ℕ) : Option (List Char) :=
  latin1D bs

/-- `utf-8` decoding, for one- and two-byte sequences; longer sequences
and malformed input fail.  (This decoder is unreachable in the loader
loop — see `C10`; it is only used to exhibit the divergence between the
utf-8 reading of a file and the latin-1 reading the code performs.) -/
def utf8D : List ℕ → Option (List Char)
  | [] => some []
  | [b] => if b < 128 then some [Char.ofNat b] else none
  | b :: b2 :: bs =>
    if b < 128 then (utf8D (b2 :: bs)).map (fun cs => Char.ofNat b :: cs)
    else if 194 ≤ b && b ≤ 223 && 128 ≤ b2 && b2 ≤ 191 then
      (utf8D bs).map (fun cs => Char.ofNat ((b - 192) * 64 + (b2 - 128)) :: cs)
    else none

/-- The `cp1252` code points for bytes `0x80`–`0x9F`; the five holes of
the code page (`0x81, 0x8D, 0x8F, 0x90, 0x9D`) fail to decode. -/
def cp1252Hi (b : ℕ) : Option Char :=
  match b with
  | 0x80 => some '€'
  | 0x82 => some '‚'
  | 0x83 => some 'ƒ'
  | 0x84 => some '„'
  | 0x85 => some '…'
  | 0x86 => some '†'
  | 0x87 => some '‡'
  | 0x88 => some 'ˆ'
  | 0x89 => some '‰'
  | 0x8A => some 'Š'
  | 0x8B => some '‹'
  | 0x8C => some 'Œ'
  | 0x8E => some 'Ž'
  | 0x91 => some '‘'
  | 0x92 => some '’'
  | 0x93 => some '“'
  | 0x94 => some '”'
  | 0x95 => some '•'
  | 0x96 => some '–'
  | 0x97 => some '—'
  | 0x98 => some '˜'
  | 0x99 => some '™'
  | 0x9A => some 'š'
  | 0x9B => some '›'
  | 0x9C => some 'œ'
  | 0x9E => some 'ž'
  | 0x9F => some 'Ÿ'
  | _ => none

/-- `cp1252` decoding (also unreachable in the loop). -/
def cp1252D (bs : List ℕ) : Option (List Char) :=
  bs.mapM (fun b =>
    if b < 0x80 ∨ 0xA0 ≤ b then some (Char.ofNat b) else cp1252Hi b)

/-- A raw CSV cell: empty fields parse as `NaN`, everything else is
kept textual (pandas' column dtype inference is immaterial downstream,
since the numeric coercion of `load_norm` parses strings anyway). -/
def cellOf (cs : List Char) : Cell :=
  if cs = [] then .null else .str (String.mk cs)

/-- Parse decoded text as `';'`-separated CSV with one header row:
columns in header order, short rows padded with `NaN`.  An empty file
fails (pandas raises `EmptyDataError`, caught by the loader's bare
`except`). -/
def csvParse (s : List Char) : Option Frame :=
  match (s.splitOn '\n').filter (fun l => l ≠ []) with
  | [] => none
  | header :: rows =>
    let hs := header.splitOn ';'
    some ((List.range hs.length).map (fun i =>
      (String.mk (hs.getD i []),
       rows.map (fun r => cellOf ((r.splitOn ';').getD i [])))))

/-- One `pd.read_csv(path, sep=";", encoding=...)` attempt: decode,
then parse. -/
def attempt (dec : List ℕ → Option (List Char)) (bs : List ℕ) : Option Frame :=
  (dec bs).bind csvParse

/-- The encoding fallback loop (app.py lines 63–68): try
`latin-1, utf-8, cp1252, iso-8859-1` in order with the fixed separator
`';'`; a bare `except` sends any failure to the next attempt; the first
success is kept (`break`).  `none` models `df is None` (fatal,
app.py lines 70–72). -/
def load_loop (bs : List ℕ) : Option Frame :=
  [latin1D, utf8D, cp1252D, iso88591D].findSome? (fun d => attempt d bs)

/-- A single `pd.read_csv(path, sep=";", encoding="latin-1")` with no
fallback — the one-read refinement the loop is claimed equivalent to. -/
def load_single_latin1 (bs : List ℕ) : Option Frame :=
  attempt latin1D bs

/-- Column count of a parsed frame. -/
def ncols (f : Frame) : ℕ := f.length

/-- Bytes of an ASCII/latin-1 text (for concrete loader inputs). -/
def strBytes (s : String) : List ℕ :=
  s.toList.map Char.toNat

/-! ### Theorems

Lookup lemmas for the pipeline steps, used for the missing-column
invariant (Claim C2). -/

theorem lookupCol_cons (h : String) (c : Col) (t : Frame) (n : String) :
    lookupCol ((h, c) :: t) n = if h = n then some c else lookupCol t n := rfl

theorem lookupCol_eq_some_mem {f : Frame} {n : String} {col : Col}
    (h : lookupCol f n = some col) : (n, col) ∈ f := by
  induction f with
  | nil => simp [lookupCol] at h
  | cons p t ih =>
    obtain ⟨h1, c1⟩ := p
    rw [lookupCol_cons] at h
    by_cases he : h1 = n
    · rw [if_pos he] at h
      obtain rfl := Option.some.inj h
      exact he ▸ List.mem_cons_self _ _
    · rw [if_neg he] at h
      exact List.mem_cons_of_mem _ (ih h)

theorem rect_of_lookup {f : Frame} {nr : ℕ}
    (hr : ∀ p ∈ f, p.2.length = nr) {n : String} {col : Col}
    (h : lookupCol f n = some col) : col.length = nr :=
  hr (n, col) (lookupCol_eq_some_mem h)

theorem lookup_none_of_not_has {f : Frame} {n : String}
    (h : hasCol f n = false) : lookupCol f n = none := by
  unfold hasCol at h
  cases hl : lookupCol f n with
  | none => rfl
  | some c => rw [hl] at h; simp at h

theorem lookupCol_map_set_self {f : Frame} {m : String}
    (h : hasCol f m = true) (c0 : Col) :
    lookupCol (f.map (fun p => if p.1 = m then (m, c0) else p)) m = some c0 := by
  induction f with
  | nil => simp [hasCol, lookupCol] at h
  | cons p t ih =>
    obtain ⟨h1, c1⟩ := p
    rw [List.map_cons]
    by_cases he : h1 = m
    · rw [if_pos (show ((h1, c1) : String × Col).1 = m from he), lookupCol_cons,
        if_pos rfl]
    · have h' : hasCol t m = true := by
        unfold hasCol at h ⊢
        rw [lookupCol_cons, if_neg he] at h
        exact h
      rw [if_neg (show ¬((h1, c1) : String × Col).1 = m from he), lookupCol_cons,
        if_neg he]
      exact ih h'

theorem lookupCol_map_set_ne (f : Frame) (m : String) (c0 : Col) {n : String}
    (hne : n ≠ m) :
    lookupCol (f.map (fun p => if p.1 = m then (m, c0) else p)) n = lookupCol f n := by
  induction f with
  | nil => rfl
  | cons p t ih =>
    obtain ⟨h1, c1⟩ := p
    rw [List.map_cons, lookupCol_cons]
    by_cases he : h1 = m
    · rw [if_pos (show ((h1, c1) : String × Col).1 = m from he), lookupCol_cons,
        if_neg (fun hmn => hne hmn.symm),
        if_neg (fun h1n => hne (h1n.symm.trans he))]
      exact ih
    · rw [if_neg (show ¬((h1, c1) : String × Col).1 = m from he), lookupCol_cons]
      by_cases hn : h1 = n
      · rw [if_pos hn, if_pos hn]
      · rw [if_neg hn, if_neg hn]
        exact ih

theorem lookupCol_append_of_has {f : Frame} {n : String}
    (h : hasCol f n = true) (m : String) (c0 : Col) :
    lookupCol (f ++ [(m, c0)]) n = lookupCol f n := by
  induction f with
  | nil => simp [hasCol, lookupCol] at h
  | cons p t ih =>
    obtain ⟨h1, c1⟩ := p
    rw [List.cons_append, lookupCol_cons, lookupCol_cons]
    by_cases he : h1 = n
    · rw [if_pos he, if_pos he]
    · have h' : hasCol t n = true := by
        unfold hasCol at h ⊢
        rw [lookupCol_cons, if_neg he] at h
        exact h
      rw [if_neg he, if_neg he]
      exact ih h'

theorem lookupCol_append_of_not {f : Frame} {n : String}
    (h : hasCol f n = false) (m : String) (c0 : Col) :
    lookupCol (f ++ [(m, c0)]) n = if m = n then some c0 else none := by
  induction f with
  | nil => rfl
  | cons p t ih =>
    obtain ⟨h1, c1⟩ := p
    rw [List.cons_append, lookupCol_cons]
    by_cases he : h1 = n
    · exfalso
      unfold hasCol at h
      rw [lookupCol_cons, if_pos he] at h
      simp at h
    · have h' : hasCol t n = false := by
        unfold hasCol at h ⊢
        rw [lookupCol_cons, if_neg he] at h
        exact h
      rw [if_neg he]
      exact ih h'

theorem lookupCol_setCol_self (f : Frame) (m : String) (c0 : Col) :
    lookupCol (setCol f m c0) m = some c0 := by
  unfold setCol
  by_cases h : hasCol f m
  · rw [if_pos h]
    exact lookupCol_map_set_self h c0
  · rw [if_neg h]
    have h' : hasCol f m = false := by simpa using h
    rw [lookupCol_append_of_not h', if_pos rfl]

theorem lookupCol_setCol_ne (f : Frame) (m : String) (c0 : Col) {n : String}
    (hne : n ≠ m) : lookupCol (setCol f m c0) n = lookupCol f n := by
  unfold setCol
  by_cases h : hasCol f m
  · rw [if_pos h]
    exact lookupCol_map_set_ne f m c0 hne
  · rw [if_neg h]
    by_cases hn : hasCol f n
    · exact lookupCol_append_of_has hn m c0
    · have hn' : hasCol f n = false := by simpa using hn
      rw [lookupCol_append_of_not hn', if_neg (fun he => hne he.symm),
        lookup_none_of_not_has hn']

theorem hasCol_setCol (f : Frame) (m : String) (c0 : Col) (n : String) :
    hasCol (setCol f m c0) n = if n = m then true else hasCol f n := by
  by_cases he : n = m
  · subst he
    simp [hasCol, lookupCol_setCol_self]
  · simp [hasCol, he, lookupCol_setCol_ne f m c0 he]

theorem addMissing_lookup_some {nr : ℕ} {l : List String} {f : Frame}
    {n : String} {col : Col} (h : lookupCol f n = some col) :
    lookupCol (addMissing nr l f) n = some col := by
  induction l generalizing f with
  | nil => simpa [addMissing] using h
  | cons c cs ih =>
    simp only [addMissing]
    by_cases hc : hasCol f c
    · rw [if_pos hc]
      exact ih h
    · rw [if_neg hc]
      apply ih
      have hne : n ≠ c := by
        intro he
        rw [he] at h
        simp [hasCol, h] at hc
      rw [lookupCol_setCol_ne _ _ _ hne]
      exact h

theorem addMissing_lookup_absent {nr : ℕ} {l : List String} {f : Frame}
    {n : String} (hnd : l.Nodup) (hn : n ∈ l) (h : hasCol f n = false) :
    lookupCol (addMissing nr l f) n = some (List.replicate nr (defaultCell n)) := by
  induction l generalizing f with
  | nil => cases hn
  | cons c cs ih =>
    simp only [addMissing]
    rcases List.mem_cons.mp hn with he | hmem
    · subst he
      rw [if_neg (by simp [h])]
      exact addMissing_lookup_some (lookupCol_setCol_self f n _)
    · have hcn : c ≠ n := fun he => (List.nodup_cons.mp hnd).1 (he ▸ hmem)
      by_cases hc : hasCol f c
      · rw [if_pos hc]
        exact ih (List.nodup_cons.mp hnd).2 hmem h
      · rw [if_neg hc]
        apply ih (List.nodup_cons.mp hnd).2 hmem
        rw [hasCol_setCol, if_neg (fun he => hcn he.symm)]
        exact h

theorem lookupCol_mapVals (g : String → Col → Col) (f : Frame) (n : String) :
    lookupCol (mapVals g f) n = (lookupCol f n).map (g n) := by
  induction f with
  | nil => rfl
  | cons p t ih =>
    obtain ⟨h1, c1⟩ := p
    show lookupCol ((h1, g h1 c1) :: mapVals g t) n = _
    rw [lookupCol_cons, lookupCol_cons]
    by_cases he : h1 = n
    · subst he
      rw [if_pos rfl, if_pos rfl]
      rfl
    · rw [if_neg he, if_neg he]
      exact ih

theorem addDerived_lookup_ne {f : Frame} {n : String}
    (h1 : n ≠ "Total_Malaises") (h2 : n ≠ "Total_Medical")
    (h3 : n ≠ "Taux_Carence") :
    lookupCol (addDerived f) n = lookupCol f n := by
  simp only [addDerived]
  rw [lookupCol_setCol_ne _ _ _ h3, lookupCol_setCol_ne _ _ _ h2,
    lookupCol_setCol_ne _ _ _ h1]

theorem addCodeDept_lookup_ne {f : Frame} {n : String}
    (h : n ≠ "Code_Dept") :
    lookupCol (addCodeDept f) n = lookupCol f n := by
  unfold addCodeDept
  by_cases hn : hasCol f "Numero"
  · rw [if_pos hn, lookupCol_setCol_ne _ _ _ h]
  · rw [if_neg hn, lookupCol_setCol_ne _ _ _ h]

theorem nrows_stripHeaders (f : Frame) : nrows (stripHeaders f) = nrows f := by
  cases f <;> rfl

theorem nrows_renameOne (f : Frame) (old new : String) :
    nrows (renameOne f old new) = nrows f := by
  unfold renameOne
  by_cases h : hasCol f old
  · rw [if_pos h]
    cases f with
    | nil => rfl
    | cons p t =>
      obtain ⟨h1, c1⟩ := p
      rw [List.map_cons]
      by_cases hp : h1 = old
      · rw [if_pos (show ((h1, c1) : String × Col).1 = old from hp)]
        rfl
      · rw [if_neg (show ¬((h1, c1) : String × Col).1 = old from hp)]
        rfl
  · rw [if_neg h]

theorem nrows_foldl_renameOne (l : List (String × String)) (f : Frame) :
    nrows (l.foldl (fun g q => renameOne g q.1 q.2) f) = nrows f := by
  induction l generalizing f with
  | nil => rfl
  | cons q t ih => rw [List.foldl_cons, ih, nrows_renameOne]

theorem nrows_renameAll (f : Frame) : nrows (renameAll f) = nrows f :=
  nrows_foldl_renameOne col_mapping f

theorem rect_stripHeaders {f : Frame} {nr : ℕ}
    (hr : ∀ p ∈ f, p.2.length = nr) :
    ∀ p ∈ stripHeaders f, p.2.length = nr := by
  intro p hp
  rcases List.mem_map.mp hp with ⟨q, hq, rfl⟩
  exact hr q hq

theorem rect_renameOne {f : Frame} {nr : ℕ}
    (hr : ∀ p ∈ f, p.2.length = nr) (old new : String) :
    ∀ p ∈ renameOne f old new, p.2.length = nr := by
  intro p hp
  unfold renameOne at hp
  by_cases h : hasCol f old
  · rw [if_pos h] at hp
    rcases List.mem_map.mp hp with ⟨q, hq, rfl⟩
    by_cases hq1 : q.1 = old
    · rw [if_pos hq1]
      exact hr q hq
    · rw [if_neg hq1]
      exact hr q hq
  · rw [if_neg h] at hp
    exact hr p hp

theorem rect_foldl_renameOne {nr : ℕ} (l : List (String × String)) {f : Frame}
    (hr : ∀ p ∈ f, p.2.length = nr) :
    ∀ p ∈ l.foldl (fun g q => renameOne g q.1 q.2) f, p.2.length = nr := by
  induction l generalizing f with
  | nil => simpa using hr
  | cons q t ih =>
    rw [List.foldl_cons]
    exact ih (rect_renameOne hr q.1 q.2)

theorem rect_renameAll {f : Frame} {nr : ℕ}
    (hr : ∀ p ∈ f, p.2.length = nr) :
    ∀ p ∈ renameAll f, p.2.length = nr :=
  rect_foldl_renameOne col_mapping hr

/-- Core of Claim C2, stated after the strip/rename step: for every
rectangular frame `f1` and every canonical column, the remaining
pipeline produces the column, with the row count preserved, and a
column absent from `f1` comes out as the constant default column. -/
theorem C2_core (f1 : Frame) (nr : ℕ)
    (hr1 : ∀ p ∈ f1, p.2.length = nr) (c : String) (hc : c ∈ required_cols) :
    ∃ col,
      lookupCol
        (textClean (addCodeDept (addDerived
          (coerceNumericCols (addMissing nr required_cols f1))))) c = some col ∧
      col.length = nr ∧
      (hasCol f1 c = false → col = List.replicate nr (defaultCell c)) := by
  have hnodup : required_cols.Nodup := by decide
  have hdisj : ∀ x ∈ text_cols, x ∉ numeric_cols := by decide
  -- the column for `c` after numeric coercion
  have h3full : ∃ col3,
      lookupCol (coerceNumericCols (addMissing nr required_cols f1)) c = some col3 ∧
      col3.length = nr ∧
      (hasCol f1 c = false → col3 = List.replicate nr (defaultCell c)) := by
    by_cases hhas : hasCol f1 c
    · obtain ⟨col, hcol⟩ := Option.isSome_iff_exists.mp hhas
      have h2 : lookupCol (addMissing nr required_cols f1) c = some col :=
        addMissing_lookup_some hcol
      refine ⟨if c ∈ numeric_cols then col.map coerceCell else col, ?_, ?_, ?_⟩
      · simp [coerceNumericCols, lookupCol_mapVals, h2]
      · by_cases hnum : c ∈ numeric_cols <;>
          simp [hnum, rect_of_lookup hr1 hcol]
      · intro hfalse
        rw [hfalse] at hhas
        simp at hhas
    · have hfalse : hasCol f1 c = false := by simpa using hhas
      have h2 : lookupCol (addMissing nr required_cols f1) c
          = some (List.replicate nr (defaultCell c)) :=
        addMissing_lookup_absent hnodup hc hfalse
      refine ⟨List.replicate nr (defaultCell c), ?_, List.length_replicate _ _,
        fun _ => rfl⟩
      by_cases hnum : c ∈ numeric_cols
      · have hnt : c ∉ text_cols := fun ht => hdisj c ht hnum
        have hdc : defaultCell c = Cell.num 0 := by simp [defaultCell, hnt]
        simp [coerceNumericCols, lookupCol_mapVals, h2, hnum, List.map_replicate, hdc,
          coerceCell]
      · simp [coerceNumericCols, lookupCol_mapVals, h2, hnum]
  obtain ⟨col3, hcol3, hlen3, hdef3⟩ := h3full
  -- the derived-column and Code_Dept assignments touch other names only
  have hcTM : c ≠ "Total_Malaises" := by
    intro he; rw [he] at hc; revert hc; decide
  have hcTMed : c ≠ "Total_Medical" := by
    intro he; rw [he] at hc; revert hc; decide
  have hcTC : c ≠ "Taux_Carence" := by
    intro he; rw [he] at hc; revert hc; decide
  have hcCD : c ≠ "Code_Dept" := by
    intro he; rw [he] at hc; revert hc; decide
  have h5 : lookupCol
      (addCodeDept (addDerived (coerceNumericCols (addMissing nr required_cols f1)))) c
      = some col3 := by
    rw [addCodeDept_lookup_ne hcCD, addDerived_lookup_ne hcTM hcTMed hcTC]
    exact hcol3
  refine ⟨if c ∈ text_cols then col3.map fillTextCell else col3, ?_, ?_, ?_⟩
  · simp [textClean, lookupCol_mapVals, h5]
  · by_cases ht : c ∈ text_cols <;> simp [ht, hlen3]
  · intro hfalse
    rw [hdef3 hfalse]
    by_cases ht : c ∈ text_cols
    · have hdc : defaultCell c = Cell.str "Non renseigné" := by
        simp [defaultCell, ht]
      simp [ht, hdc, List.map_replicate, fillTextCell]
    · simp [ht]

/-- Claim C2: normalization is total (no missing-column fault can
occur), and for every rectangular raw table, after `load_norm` every
canonical column exists with one cell per row; a canonical column
absent from the (stripped, renamed) source is created filled with 0
for numeric attributes and `"Non renseigné"` for categorical ones. -/
theorem C2_canonical_columns (f : Frame)
    (hrect : ∀ p ∈ f, p.2.length = nrows f) (c : String)
    (hc : c ∈ required_cols) :
    ∃ col, lookupCol (load_norm f) c = some col ∧ col.length = nrows f ∧
      (hasCol (renameAll (stripHeaders f)) c = false →
        col = List.replicate (nrows f) (defaultCell c)) := by
  have hr1 : ∀ p ∈ renameAll (stripHeaders f), p.2.length = nrows f :=
    rect_renameAll (rect_stripHeaders hrect)
  have hn1 : nrows (renameAll (stripHeaders f)) = nrows f := by
    rw [nrows_renameAll, nrows_stripHeaders]
  have h := C2_core (renameAll (stripHeaders f)) (nrows f) hr1 c hc
  simp only [load_norm]
  rw [hn1]
  exact h

/-- Witness for `C2_canonical_columns`: a one-row, one-column raw table
whose only header is `"Région"`; the canonical `Zone` column is absent
from the source and comes out as the sentinel default. -/
theorem C2_witness :
    ∃ col,
      lookupCol (load_norm [("Région", [Cell.str "Bretagne"])]) "Zone" = some col ∧
      col.length = nrows [("Région", [Cell.str "Bretagne"])] ∧
      (hasCol (renameAll (stripHeaders [("Région", [Cell.str "Bretagne"])])) "Zone" = false →
        col = List.replicate (nrows [("Région", [Cell.str "Bretagne"])])
          (defaultCell "Zone")) :=
  C2_canonical_columns [("Région", [Cell.str "Bretagne"])]
    (by decide) "Zone" (by decide)

/-- Claim C3: for every row with non-negative shortage and
vital-emergency counts, the derived `Taux_Carence` lies in `[0, 100]`,
and equals exactly 0 when `Total_Malaises = 0`; the guarded definition
is total, so the division never faults. -/
theorem C3_taux_carence_bounds (r : Row)
    (h1 : 0 ≤ r.Malaises_Urgence) (h2 : 0 ≤ r.Malaises_Carence) :
    0 ≤ tauxCarenceRow r ∧ tauxCarenceRow r ≤ 100 ∧
      (totalMalaises r = 0 → tauxCarenceRow r = 0) := by
  unfold tauxCarenceRow taux_carence
  by_cases hpos : 0 < totalMalaises r
  · rw [if_pos hpos]
    refine ⟨mul_nonneg (div_nonneg h2 hpos.le) (by norm_num), ?_, ?_⟩
    · have hle : r.Malaises_Carence ≤ totalMalaises r := by
        unfold totalMalaises; linarith
      have hq : r.Malaises_Carence / totalMalaises r ≤ 1 := (div_le_one hpos).mpr hle
      have := mul_le_mul_of_nonneg_right hq (by norm_num : (0 : ℚ) ≤ 100)
      simpa using this
    · intro h0
      rw [h0] at hpos
      exact absurd hpos (by norm_num)
  · rw [if_neg hpos]
    exact ⟨le_refl 0, by norm_num, fun _ => rfl⟩

/-- Witness for `C3_taux_carence_bounds` at a concrete row
(1 vital-emergency, 1 shortage: rate 50). -/
theorem C3_witness :
    0 ≤ tauxCarenceRow ⟨"X", "D", "C", "Z", 1, 1, 0, 0, 0, 2⟩ ∧
      tauxCarenceRow ⟨"X", "D", "C", "Z", 1, 1, 0, 0, 0, 2⟩ ≤ 100 ∧
      (totalMalaises ⟨"X", "D", "C", "Z", 1, 1, 0, 0, 0, 2⟩ = 0 →
        tauxCarenceRow ⟨"X", "D", "C", "Z", 1, 1, 0, 0, 0, 2⟩ = 0) :=
  C3_taux_carence_bounds ⟨"X", "D", "C", "Z", 1, 1, 0, 0, 0, 2⟩
    (by norm_num) (by norm_num)

/-- Claim C1: for every grouping of the canonical table (any key
function; `region_carence` is the key `Region`), the aggregate shortage
rate of a group is recomputed as
`sum(Malaises_Carence) / sum(Total_Malaises) × 100` (0 when the summed
denominator is 0) — and it is not the arithmetic mean of the per-row
rates, which differs on `unevenDf` (aggregate 25, mean 50). -/
theorem C1_group_rate_sum_div (key : Row → String) (df : List Row) (k : String)
    (h : ∀ r ∈ df, 0 ≤ totalMalaises r) :
    taux_agg key df k =
      (if ((groupRows key df k).map totalMalaises).sum = 0 then 0
       else ((groupRows key df k).map Row.Malaises_Carence).sum
            / ((groupRows key df k).map totalMalaises).sum * 100) ∧
    region_carence_taux unevenDf "X" ≠ meanTauxRow Row.Region unevenDf "X" := by
  constructor
  · have hS : 0 ≤ ((groupRows key df k).map totalMalaises).sum := by
      apply List.sum_nonneg
      intro x hx
      obtain ⟨r, hr, rfl⟩ := List.mem_map.mp hx
      exact h r (List.mem_of_mem_filter hr)
    by_cases h0 : ((groupRows key df k).map totalMalaises).sum = 0
    · rw [if_pos h0]
      unfold taux_agg taux_carence
      rw [h0]
      simp
    · rw [if_neg h0]
      unfold taux_agg taux_carence
      rw [if_pos (lt_of_le_of_ne hS (Ne.symm h0))]
  · norm_num [region_carence_taux, taux_agg, meanTauxRow, groupRows, unevenDf,
      tauxCarenceRow, taux_carence, totalMalaises]

/-- Witness for `C1_group_rate_sum_div` on `unevenDf` grouped by
`Region` at key `"X"`. -/
theorem C1_witness :
    taux_agg Row.Region unevenDf "X" =
      (if ((groupRows Row.Region unevenDf "X").map totalMalaises).sum = 0 then 0
       else ((groupRows Row.Region unevenDf "X").map Row.Malaises_Carence).sum
            / ((groupRows Row.Region unevenDf "X").map totalMalaises).sum * 100) ∧
    region_carence_taux unevenDf "X" ≠ meanTauxRow Row.Region unevenDf "X" :=
  C1_group_rate_sum_div Row.Region unevenDf "X"
    (by intro r hr; fin_cases hr <;> norm_num [totalMalaises])

/-- Claim C4 (counterexample): the claim says `"1 234"` coerces to
`1234`; `pd.to_numeric(·, errors='coerce').fillna(0)` has no
thousands-separator cleaning, so the code coerces it to 0, and
`0 ≠ 1234`. -/
theorem C4_counterexample :
    coerceCell (Cell.str "1 234") = Cell.num 0 ∧ Cell.num (0 : ℚ) ≠ Cell.num 1234 :=
  ⟨by decide, by decide⟩

/-- Claim C4 (amended): the coercion never raises, and maps `"1 234"`,
`"1234,5"`, `""`, `None`, `"N/A"` all to 0 — no interior-whitespace
stripping and no decimal-comma replacement is performed; only plain
decimal notation parses (`" 1234 "` to 1234, `"1234.5"` to 1234.5),
everything else falls back to 0. -/
theorem C4_amended_coercion :
    coerceCell (Cell.str "1 234") = Cell.num 0 ∧
    coerceCell (Cell.str "1234,5") = Cell.num 0 ∧
    coerceCell (Cell.str "") = Cell.num 0 ∧
    coerceCell Cell.null = Cell.num 0 ∧
    coerceCell (Cell.str "N/A") = Cell.num 0 ∧
    coerceCell (Cell.str " 1234 ") = Cell.num 1234 ∧
    coerceCell (Cell.str "1234.5") = Cell.num (2469 / 2) := by
  refine ⟨by decide, by decide, by decide, by decide, by decide, by decide, ?_⟩
  have h1 : trimChars ['1', '2', '3', '4', '.', '5'] = ['1', '2', '3', '4', '.', '5'] := by
    decide
  have h2 : List.splitOn '.' ['1', '2', '3', '4', '.', '5'] = [['1', '2', '3', '4'], ['5']] := by
    decide
  have h3 : digitsVal ['1', '2', '3', '4'] = 1234 := by decide
  have h4 : digitsVal ['5'] = 5 := by decide
  have h5 : allDigits ['1', '2', '3', '4'] = true := by decide
  have h6 : allDigits ['5'] = true := by decide
  simp [coerceCell, parseFloat, h1, parseUnsigned, h2, h3, h4, h5, h6]
  norm_num

/-- Claim C5 (counterexample): the claim says the raw header
`"REGION "` resolves to the canonical `Region` field; the code only
strips and exact-matches against `col_mapping`, so `"REGION "` is not
resolved, and a table whose only header is `"REGION "` gets the default
`Region` column (`"Non renseigné"`) instead of the `"Bretagne"` data. -/
theorem C5_counterexample :
    lookupCol (load_norm [("REGION ", [Cell.str "Bretagne"])]) "Region"
      = some [Cell.str "Non renseigné"] ∧
    renamedHeader "REGION " = "REGION" ∧ "REGION" ≠ "Region" :=
  ⟨by decide, by decide, by decide⟩

/-- Claim C5 (amended): header resolution strips surrounding
whitespace and then exact-matches against the fixed `col_mapping`
list; `"Région"` (also with surrounding spaces) resolves to `Region`
and its data is kept, while `"REGION "` does not resolve — there is no
case-insensitive, accent-insensitive, or substring matching. -/
theorem C5_amended_resolution :
    renamedHeader "Région" = "Region" ∧
    renamedHeader " Région " = "Region" ∧
    renamedHeader "REGION " = "REGION" ∧
    lookupCol (load_norm [("Région", [Cell.str "Bretagne"])]) "Region"
      = some [Cell.str "Bretagne"] :=
  ⟨by decide, by decide, by decide, by decide⟩

/-- Claim C6 (counterexample): the claim says an attempt producing a
single-column table is rejected and the next combination tried; on the
comma-separated input `"a,b\n1,2"` the first attempt parses to a
single-column table and the loader accepts it. -/
theorem C6_counterexample :
    (load_loop (strBytes "a,b\n1,2")).map ncols = some 1 := by decide

/-- Claim C6 (amended): the loader attempts a fixed ordered list of
four text encodings with the field delimiter fixed at `';'`, accepts
the first attempt that does not raise — regardless of the column count
of the result — and fails only when every attempt raises (e.g. the
empty file). -/
theorem C6_amended_loader (bs : List ℕ) (t : Frame)
    (h : attempt latin1D bs = some t) :
    load_loop bs = some t ∧ load_loop [] = none :=
  ⟨by simp [load_loop, List.findSome?, h], by decide⟩

/-- Witness for `C6_amended_loader` on the two-column file `"a;b\nc;d"`. -/
theorem C6_witness :
    load_loop (strBytes "a;b\nc;d")
      = some [("a", [Cell.str "c"]), ("b", [Cell.str "d"])] ∧
    load_loop [] = none :=
  C6_amended_loader (strBytes "a;b\nc;d")
    [("a", [Cell.str "c"]), ("b", [Cell.str "d"])] (by decide)

/-- Claim C7 (counterexample): the claim says identifier `"BSPP"` maps
to the Paris-brigade zone-type label while other identifiers map to the
mainland label (two distinct labels).  The code computes no zone
classification at all: with no `Zone` column in the source, the
`"BSPP"` row and the `"Ain"` row both receive the identical sentinel
`"Non renseigné"`; and a source zone label `"Guyane"` is passed through
verbatim, not mapped to an overseas zone-type label. -/
theorem C7_counterexample :
    lookupCol (load_norm [("Département", [Cell.str "BSPP", Cell.str "Ain"])]) "Zone"
      = some [Cell.str "Non renseigné", Cell.str "Non renseigné"] ∧
    lookupCol (load_norm [("Zone", [Cell.str "Guyane"])]) "Zone"
      = some [Cell.str "Guyane"] :=
  ⟨by decide, by decide⟩

/-- Claim C7 (amended): no zone-type classification exists; the `Zone`
attribute is the sentinel `"Non renseigné"` for every row when the
source has no `Zone` column — independent of the identifier — and is
the source's value passed through unchanged when the column exists
(string cells are fixed points of the text cleanup). -/
theorem C7_amended_zone :
    (∀ s : String, fillTextCell (Cell.str s) = Cell.str s) ∧
    fillTextCell Cell.null = Cell.str "Non renseigné" ∧
    lookupCol (load_norm [("Département", [Cell.str "BSPP", Cell.str "Ain"])]) "Zone"
      = some [Cell.str "Non renseigné", Cell.str "Non renseigné"] ∧
    lookupCol (load_norm [("Zone", [Cell.str "Guyane", Cell.str "Corse"])]) "Zone"
      = some [Cell.str "Guyane", Cell.str "Corse"] :=
  ⟨fun _ => rfl, rfl, by decide, by decide⟩

/-- Claim C8 (counterexample): the claim says every
percentage-of-whole call site returns 0 on a zero denominator; the
`Part_Incendies` site (app.py line 554) divides unguarded, so `0/0`
produces no finite number (pandas: `NaN`), not 0. -/
theorem C8_counterexample :
    Part_Incendies 0 0 = none ∧ Part_Incendies 0 0 ≠ some 0 := by
  constructor <;> simp [Part_Incendies, pandasDiv]

/-- Claim C8 (amended): the guarded sites (`pct`, app.py lines
315–316 and the same shape elsewhere) return 0 when the whole is 0 and
`part/whole×100` otherwise; the `Part_Incendies` site is unguarded and
yields a non-finite value on a zero denominator. -/
theorem C8_amended_pct (v t : ℚ) (h : 0 < t) :
    pct v t = v / t * 100 ∧ pct v 0 = 0 ∧ Part_Incendies v 0 = none := by
  refine ⟨if_pos h, ?_, ?_⟩
  · simp [pct]
  · simp [Part_Incendies, pandasDiv]

/-- Witness for `C8_amended_pct` at `v = 50`, `t = 200`. -/
theorem C8_witness :
    pct 50 200 = 50 / 200 * 100 ∧ pct 50 0 = 0 ∧ Part_Incendies 50 0 = none :=
  C8_amended_pct 50 200 (by norm_num)

/-- Claim C9: applying the sidebar filter with all three selectors at
`"Toutes"` returns the full table, equal in content and row order.
(The input table is untouched: `df_filtered` is a pure function of
`df`, mirroring `df.copy()` plus non-mutating boolean-mask selects.) -/
theorem C9_empty_filter_id (df : List Row) :
    df_filtered df "Toutes" "Toutes" "Toutes" = df := by
  simp [df_filtered]

/-- Claim C10: for every input whose latin-1 read succeeds (in
particular every byte sequence that parses as `';'`-CSV — latin-1
decoding itself never fails), the four-encoding loop equals the single
latin-1 read, so the utf-8, cp1252 and iso-8859-1 attempts are
unreachable; the UTF-8 bytes `C3 A9` (`"é"`) are silently decoded as
latin-1 `"Ã©"` rather than triggering any fallback. -/
theorem C10_loop_equals_latin1 (bs : List ℕ)
    (h : load_single_latin1 bs ≠ none) :
    load_loop bs = load_single_latin1 bs ∧
    load_loop [0xC3, 0xA9] = some [("Ã©", [])] ∧
    load_single_latin1 [0xC3, 0xA9] ≠ attempt utf8D [0xC3, 0xA9] := by
  refine ⟨?_, by decide, by decide⟩
  cases ha : attempt latin1D bs with
  | none => exact absurd ha h
  | some t => simp [load_loop, load_single_latin1, List.findSome?, ha]

/-- Witness for `C10_loop_equals_latin1` on the file `"a;b\nc;d"`. -/
theorem C10_witness :
    load_loop (strBytes "a;b\nc;d") = load_single_latin1 (strBytes "a;b\nc;d") ∧
    load_loop [0xC3, 0xA9] = some [("Ã©", [])] ∧
    load_single_latin1 [0xC3, 0xA9] ≠ attempt utf8D [0xC3, 0xA9] :=
  C10_loop_equals_latin1 (strBytes "a;b\nc;d") (by decide)

end Pompiers
